import Mathlib

/-!
Shallow embedding of `generate_icon.py` from the RVUCounter repository.

The script draws a circular badge icon with PIL at the six sizes
16, 32, 48, 64, 128, 256, packs them into one multi-resolution ICO
container, and writes a standalone 256-pixel preview.

Modelling conventions, stated once here and referenced below:
* Python integers are nonnegative at every program point of this script,
  so they are embedded as `Nat`; pixel coordinates handed to the drawing
  layer are embedded as `Int`.
* A Python expression `int(e)` where `e` is a nonnegative float built
  from products of size with decimal constants is embedded as the floor
  of the exact rational value of `e` (a single `Nat` floor-division over
  the denominator 100).  For the six generated sizes the exact-rational
  floor agrees with Python's float evaluation.
* Each `ImageDraw` call is recorded as a `DrawCmd` with its literal
  arguments; rasterization of a command list is defined below with
  pixel-membership predicates (exact disk / box membership for fills,
  inward annulus bands for outlines and arcs, with PIL's angle
  convention of 0 degrees at three o'clock growing clockwise).
* `ImageDraw` writes colors; it does not alpha-blend.  A fill given an
  RGB triple on an RGBA image writes alpha 255.
-/

namespace RVUCounter

/-- RGBA color with natural-number channels in 0..255; alpha 0 is fully transparent. -/
structure Color where
  r : Nat
  g : Nat
  b : Nat
  a : Nat
deriving DecidableEq, Repr

/-- Fully transparent black (0,0,0,0), the initial value of every pixel of a freshly
created RGBA image (`Image.new('RGBA', (size, size), (0, 0, 0, 0))`). -/
def transparent : Color := ⟨0, 0, 0, 0⟩

/-- Dark blue background gradient endpoint `bg_dark = (20, 55, 90)` of the script. -/
def bg_dark : Color := ⟨20, 55, 90, 255⟩

/-- Teal background gradient endpoint `bg_light = (26, 82, 118)` of the script. -/
def bg_light : Color := ⟨26, 82, 118, 255⟩

/-- Light blue scan-line color `scan_color = (200, 230, 255, 180)` of the script. -/
def scan_color : Color := ⟨200, 230, 255, 180⟩

/-- Soft green chart color `chart_color = (100, 200, 150, 220)` of the script. -/
def chart_color : Color := ⟨100, 200, 150, 220⟩

/-- Models the Python slice `c[:3]` used as a fill color: the alpha component is
dropped and the RGB triple is written opaquely (alpha 255) on the RGBA image. -/
def rgb3 (c : Color) : Color := ⟨c.r, c.g, c.b, 255⟩

/-- One recorded `ImageDraw` call of the script, with its literal arguments.
Bounding boxes `[x0, y0, x1, y1]` are inclusive pixel coordinates as in PIL. -/
inductive DrawCmd where
  | ellipseFill (x0 y0 x1 y1 : Int) (c : Color)
  | ellipseOutline (x0 y0 x1 y1 : Int) (c : Color) (w : Nat)
  | arcStroke (x0 y0 x1 y1 a0 a1 : Int) (c : Color) (w : Nat)
  | rectFill (x0 y0 x1 y1 : Int) (c : Color)
deriving DecidableEq, Repr

/-- Color argument of a recorded drawing call. -/
def cmd_color : DrawCmd → Color
  | .ellipseFill _ _ _ _ c => c
  | .ellipseOutline _ _ _ _ c _ => c
  | .arcStroke _ _ _ _ _ _ c _ => c
  | .rectFill _ _ _ _ c => c

/-- Tests whether a recorded drawing call is a filled rectangle. -/
def is_rect_cmd : DrawCmd → Bool
  | .rectFill _ _ _ _ _ => true
  | _ => false

/-- Tests whether a recorded drawing call is a stroked arc. -/
def is_arc_cmd : DrawCmd → Bool
  | .arcStroke _ _ _ _ _ _ _ _ => true
  | _ => false

/-- Radii visited by the gradient loop `for r in range(size // 2, 0, -1)`:
the list `[size/2, size/2 - 1, ..., 1]`. -/
def gradient_radii (size : Nat) : List Nat := (List.range' 1 (size / 2)).reverse

/-- Gradient fill color for loop radius `rr` at a given size.  The script computes
`ratio = r / (size // 2)` and each channel as
`int(bg_dark[i] * (1 - ratio) + bg_light[i] * ratio)`; with `half = size / 2`
the exact rational value of channel `i` is `(dark_i * (half - rr) + light_i * rr) / half`,
whose floor is the `Nat` floor-division below. -/
def grad_color (size rr : Nat) : Color :=
  let half := size / 2
  ⟨(20 * (half - rr) + 26 * rr) / half,
   (55 * (half - rr) + 82 * rr) / half,
   (90 * (half - rr) + 118 * rr) / half,
   255⟩

/-- Command trace of the gradient stage of `create_icon_image`: one filled circle per
loop radius, centered at `(cx, cy) = (size // 2, size // 2)`, largest first. -/
def gradient_cmds (size : Nat) : List DrawCmd :=
  let cx : Int := (size / 2 : Nat)
  let cy : Int := (size / 2 : Nat)
  (gradient_radii size).map (fun (rr : Nat) =>
    DrawCmd.ellipseFill (cx - (rr : Int)) (cy - (rr : Int)) (cx + (rr : Int)) (cy + (rr : Int))
      (grad_color size rr))

/-- Border stroke width `max(1, size // 32)`. -/
def border_width_of (size : Nat) : Nat := max 1 (size / 32)

/-- Scan arc stroke width `arc_width = max(2, size // 20)`. -/
def arc_width_of (size : Nat) : Nat := max 2 (size / 20)

/-- Inner scan arc radius `inner_r = int(size * 0.25)`. -/
def inner_r_of (size : Nat) : Nat := size * 25 / 100

/-- Outer scan arc radius `outer_r = int(size * 0.35)`. -/
def outer_r_of (size : Nat) : Nat := size * 35 / 100

/-- Chart bar width `bar_width = max(2, int(size * 0.06))`. -/
def bar_width_of (size : Nat) : Nat := max 2 (size * 6 / 100)

/-- Chart bar spacing `bar_spacing = int(size * 0.08)`. -/
def bar_spacing_of (size : Nat) : Nat := size * 8 / 100

/-- Chart baseline `base_y = int(cy + size * 0.15)`, as one exact floor. -/
def base_y_of (size : Nat) : Nat := ((size / 2) * 100 + size * 15) / 100

/-- Leftmost bar abscissa `bar_x = int(cx - size * 0.12)`, as one exact floor. -/
def bar_x_of (size : Nat) : Nat := ((size / 2) * 100 - size * 12) / 100

/-- Chart bar heights `[int(size * 0.12), int(size * 0.18), int(size * 0.24)]`. -/
def bar_heights_of (size : Nat) : List Nat :=
  [size * 12 / 100, size * 18 / 100, size * 24 / 100]

/-- Accent dot diameter `dot_size = max(2, int(size * 0.06))`. -/
def dot_size_of (size : Nat) : Nat := max 2 (size * 6 / 100)

/-- Accent dot abscissa `dot_x = int(cx + size * 0.2)`, as one exact floor. -/
def dot_x_of (size : Nat) : Nat := ((size / 2) * 100 + size * 20) / 100

/-- Accent dot ordinate `dot_y = int(cy - size * 0.25)`, as one exact floor. -/
def dot_y_of (size : Nat) : Nat := ((size / 2) * 100 - size * 25) / 100

/-- Center pixel of the accent dot's bounding box `[dot_x, dot_y, dot_x + dot_size,
dot_y + dot_size]`. -/
def dot_center (size : Nat) : Int × Int :=
  ((dot_x_of size + dot_size_of size / 2 : Nat), (dot_y_of size + dot_size_of size / 2 : Nat))

/-- Full command trace of `create_icon_image(size)`, in program order: gradient
circles largest first, border ring, inner scan arc, outer scan arc, the three
chart bars, and — only when `size >= 48` — the accent dot. -/
def create_icon_image_cmds (size : Nat) : List DrawCmd :=
  let cx : Int := (size / 2 : Nat)
  let cy : Int := (size / 2 : Nat)
  let inner_r : Int := (inner_r_of size : Nat)
  let outer_r : Int := (outer_r_of size : Nat)
  let bar_w : Int := (bar_width_of size : Nat)
  let bar_sp : Int := (bar_spacing_of size : Nat)
  let base_y : Int := (base_y_of size : Nat)
  let bar_x : Int := (bar_x_of size : Nat)
  gradient_cmds size
  ++ [DrawCmd.ellipseOutline 2 2 ((size : Int) - 3) ((size : Int) - 3)
        ⟨255, 255, 255, 100⟩ (border_width_of size)]
  ++ [DrawCmd.arcStroke (cx - inner_r) (cy - inner_r) (cx + inner_r) (cy + inner_r)
        (-135) (-45) (rgb3 scan_color) (arc_width_of size)]
  ++ [DrawCmd.arcStroke (cx - outer_r) (cy - outer_r) (cx + outer_r) (cy + outer_r)
        45 135 (rgb3 scan_color) (arc_width_of size)]
  ++ ((bar_heights_of size).enum.map (fun p =>
        let x : Int := bar_x + (p.1 : Int) * bar_sp
        DrawCmd.rectFill x (base_y - (p.2 : Int)) (x + bar_w) base_y (rgb3 chart_color)))
  ++ (if 48 ≤ size then
        let dot_sz : Int := (dot_size_of size : Nat)
        let dot_x : Int := (dot_x_of size : Nat)
        let dot_y : Int := (dot_y_of size : Nat)
        [DrawCmd.ellipseFill dot_x dot_y (dot_x + dot_sz) (dot_y + dot_sz)
          ⟨255, 255, 255, 200⟩]
      else [])

/-- Pixel membership in a filled ellipse with inclusive bounding box `[x0, y0, x1, y1]`:
the pixel lies within the ellipse of center `((x0+x1)/2, (y0+y1)/2)` and semi-axes
`(x1-x0)/2, (y1-y0)/2`.  Clearing denominators (doubled coordinates) keeps the test
in integer arithmetic. -/
def in_ellipse (x0 y0 x1 y1 x y : Int) : Bool :=
  let dx := 2 * x - (x0 + x1)
  let dy := 2 * y - (y0 + y1)
  let w := x1 - x0
  let h := y1 - y0
  decide (dx * dx * (h * h) + dy * dy * (w * w) ≤ w * w * (h * h))

/-- Pixel membership in a stroked ellipse outline of width `w`: PIL strokes grow
inward from the bounding box, so the band lies between the ellipse of the given box
and the ellipse of the box inset by `w` on every side. -/
def in_ellipse_ring (x0 y0 x1 y1 : Int) (w : Nat) (x y : Int) : Bool :=
  in_ellipse x0 y0 x1 y1 x y && !(in_ellipse (x0 + w) (y0 + w) (x1 - w) (y1 - w) x y)

/-- Angular sector test for the two arc spans the script uses, in PIL's convention
(0 degrees at three o'clock, growing clockwise, y axis pointing down): the span
-135..-45 is the octant pair with `dy <= -|dx|` and the span 45..135 the one with
`dy >= |dx|`.  Spans not occurring in the script rasterize to nothing. -/
def in_arc_span (a0 a1 dx dy : Int) : Bool :=
  if a0 = -135 ∧ a1 = -45 then
    decide (dy ≤ 0) && decide (dx ≤ -dy) && decide (-dx ≤ -dy)
  else if a0 = 45 ∧ a1 = 135 then
    decide (0 ≤ dy) && decide (dx ≤ dy) && decide (-dx ≤ dy)
  else false

/-- Pixel membership in a stroked arc: the ellipse ring of the stroke width
intersected with the angular sector, on doubled coordinates. -/
def in_arc (x0 y0 x1 y1 a0 a1 : Int) (w : Nat) (x y : Int) : Bool :=
  in_ellipse_ring x0 y0 x1 y1 w x y &&
    in_arc_span a0 a1 (2 * x - (x0 + x1)) (2 * y - (y0 + y1))

/-- Pixel membership in a filled rectangle: PIL includes both corners. -/
def in_rect (x0 y0 x1 y1 x y : Int) : Bool :=
  decide (x0 ≤ x) && decide (x ≤ x1) && decide (y0 ≤ y) && decide (y ≤ y1)

/-- Effect of one drawing call on a canvas: pixels inside the drawn shape take the
call's color (PIL writes, it does not blend); all others keep their old color. -/
def apply_cmd (c : DrawCmd) (canvas : Int → Int → Color) : Int → Int → Color :=
  fun x y =>
    match c with
    | .ellipseFill x0 y0 x1 y1 col =>
        if in_ellipse x0 y0 x1 y1 x y then col else canvas x y
    | .ellipseOutline x0 y0 x1 y1 col w =>
        if in_ellipse_ring x0 y0 x1 y1 w x y then col else canvas x y
    | .arcStroke x0 y0 x1 y1 a0 a1 col w =>
        if in_arc x0 y0 x1 y1 a0 a1 w x y then col else canvas x y
    | .rectFill x0 y0 x1 y1 col =>
        if in_rect x0 y0 x1 y1 x y then col else canvas x y

/-- Applies a list of drawing calls in order; a later call overdraws earlier ones. -/
def rasterize : List DrawCmd → (Int → Int → Color) → Int → Int → Color
  | [], canvas => canvas
  | c :: rest, canvas => rasterize rest (apply_cmd c canvas)

/-- Square RGBA raster of side `size`. -/
structure Canvas where
  size : Nat
  pix : Int → Int → Color

/-- Models `Image.new('RGBA', (size, size), (0, 0, 0, 0))`: a fresh fully
transparent square canvas. -/
def new_canvas (size : Nat) : Canvas := ⟨size, fun _ _ => transparent⟩

/-- Embedding of `create_icon_image(size)`: the fresh transparent canvas with the
recorded drawing calls rasterized onto it, in program order. -/
def create_icon_image (size : Nat) : Canvas :=
  ⟨size, rasterize (create_icon_image_cmds size) (new_canvas size).pix⟩

/-- The pixel grid of a canvas, row by row, restricted to its declared bounds. -/
def canvas_grid (c : Canvas) : List (List Color) :=
  (List.range c.size).map (fun (y : Nat) =>
    (List.range c.size).map (fun (x : Nat) => c.pix (x : Int) (y : Int)))

/-- Color of pixel `(x, y)` after only the gradient stage of `create_icon_image`. -/
def background_pix (size : Nat) (x y : Int) : Color :=
  rasterize (gradient_cmds size) (new_canvas size).pix x y

/-- The size list `sizes = [16, 32, 48, 64, 128, 256]` of `create_ico_file`. -/
def ico_sizes : List Nat := [16, 32, 48, 64, 128, 256]

/-- Multi-resolution icon container: the ordered list of embedded frames. -/
structure IcoFile where
  frames : List Canvas

/-- Embedding of `create_ico_file`: one rendered canvas per size of `ico_sizes`,
in that order, packed into one container
(`images[0].save(..., append_images=images[1:])`). -/
def create_ico_file : IcoFile := ⟨ico_sizes.map create_icon_image⟩

/-- Preview image written by `main`: `create_icon_image(256)` saved as PNG. -/
def main_preview : Canvas := create_icon_image 256

/-- Observable artifacts of one run of `main`: the ICO container and the preview
canvas.  The argument models the pre-existing filesystem contents (path, bytes),
which the script never reads — `main` renders from the size constants alone and
overwrites both output files unconditionally. -/
def main_outputs : List (String × List Nat) → IcoFile × Canvas :=
  fun _ => (create_ico_file, create_icon_image 256)

/-- Background colors sampled along the horizontal radius from the canvas center
`(cx, cy)` out to the disc edge: sample `t` is the pixel `(cx + t, cy)`,
for `t = 0, ..., size/2 - 1`. -/
def radius_samples (size : Nat) : List Color :=
  (List.range (size / 2)).map (fun t =>
    background_pix size ((size / 2 + t : Nat) : Int) ((size / 2 : Nat) : Int))

/-- Top-edge ordinate of a filled rectangle command (rectangles are drawn from
`base_y - h` down to `base_y`, so `y0` is the bar's top edge). -/
def rect_y0 : DrawCmd → Int
  | .rectFill _ y0 _ _ _ => y0
  | _ => 0

/-- Boolean check that every two adjacent list entries satisfy `p`, used to state
monotonicity of sampled channels and of loop radii by plain evaluation. -/
def chainB {α : Type} (p : α → α → Bool) : List α → Bool
  | [] => true
  | [_] => true
  | a :: b :: rest => p a b && chainB p (b :: rest)

/-- C1, counterexample.  The claim ends "yielding a radial gradient that is teal at
the center and dark blue at the edge"; teal (26,82,118) has the larger blue channel
(118 versus 90), so that reading requires the blue channel at the canvas center to
exceed the blue channel at the disc edge.  At size 16 the background stage renders
the center pixel (8,8) as (20,58,93) — the dark-blue end — and the edge pixel
(15,8) as (25,78,114) — the teal end: blue strictly increases from center to edge,
the opposite orientation.  The gradient ratio `r / (size//2)` is 1 at the outermost
(largest, teal) circle and smallest at the innermost (dark) circle. -/
theorem C1_counterexample :
    background_pix 16 8 8 = ⟨20, 58, 93, 255⟩ ∧
    background_pix 16 15 8 = ⟨25, 78, 114, 255⟩ ∧
    (background_pix 16 8 8).b < (background_pix 16 15 8).b := by decide

/-- C1, amended.  For every size in {16,32,48,64,128,256} the background disc of
`create_icon_image` is produced by iterating radius r from size/2 down to 1
(largest first, strictly decreasing, so smaller circles overdraw), filling each
circle with the integer-truncated linear interpolation `grad_color` between
dark-blue (20,55,90) and teal (26,82,118) at ratio r/(size/2); the outermost
circle is exactly teal and the innermost is within 3 of dark blue on every
channel, so the gradient is dark blue at the center and teal at the edge. -/
theorem C1_gradient_structure :
    ∀ size ∈ ico_sizes,
      (create_icon_image_cmds size).take (size / 2) =
        ((List.range' 1 (size / 2)).reverse.map (fun (rr : Nat) =>
          DrawCmd.ellipseFill (((size / 2 : Nat) : Int) - (rr : Int))
            (((size / 2 : Nat) : Int) - (rr : Int))
            (((size / 2 : Nat) : Int) + (rr : Int))
            (((size / 2 : Nat) : Int) + (rr : Int))
            (grad_color size rr))) ∧
      chainB (fun a b => decide (b < a)) (gradient_radii size) = true ∧
      grad_color size (size / 2) = ⟨26, 82, 118, 255⟩ ∧
      (grad_color size 1).b < (grad_color size (size / 2)).b ∧
      bg_dark.r ≤ (grad_color size 1).r ∧ (grad_color size 1).r ≤ bg_dark.r + 3 ∧
      bg_dark.g ≤ (grad_color size 1).g ∧ (grad_color size 1).g ≤ bg_dark.g + 3 ∧
      bg_dark.b ≤ (grad_color size 1).b ∧ (grad_color size 1).b ≤ bg_dark.b + 3 := by
  decide

/-- Witness for C1: at size 16 the outermost gradient circle is exactly teal. -/
theorem C1_gradient_structure_witness :
    grad_color 16 (16 / 2) = ⟨26, 82, 118, 255⟩ :=
  (C1_gradient_structure 16 (by decide)).2.2.1

set_option maxRecDepth 100000 in
/-- C2.  For every size in the set, sampling the background gradient along the
horizontal radius from the canvas center out to the disc edge gives a blue channel
that is non-decreasing, and every sampled color equals the integer-truncated
linear interpolation `grad_color` between (20,55,90) and (26,82,118) evaluated at
the radius of the smallest drawn circle covering the sample — `max t 1`, which
differs from the geometric distance t by at most 1 (only at the center t = 0,
which is covered by the innermost, radius-1, circle). -/
theorem C2_gradient_monotone :
    ∀ size ∈ ico_sizes,
      chainB (fun c1 c2 => decide (c1.b ≤ c2.b)) (radius_samples size) = true ∧
      ∀ t ∈ List.range (size / 2),
        background_pix size ((size / 2 + t : Nat) : Int) ((size / 2 : Nat) : Int) =
          grad_color size (max t 1) := by
  decide

/-- Witness for C2: at size 16 the sample 3 pixels right of center carries the
truncated interpolation color at radius 3. -/
theorem C2_gradient_monotone_witness :
    background_pix 16 ((16 / 2 + 3 : Nat) : Int) ((16 / 2 : Nat) : Int) =
      grad_color 16 (max 3 1) :=
  (C2_gradient_monotone 16 (by decide)).2 3 (by decide)

/-- C3.  For every size in the set, `create_icon_image size` is a canvas of
exactly size × size pixels (declared side and pixel grid dimensions), each pixel
an RGBA `Color`, and the freshly created canvas it draws on is fully transparent
at every pixel before any drawing step runs. -/
theorem C3_canvas_shape :
    ∀ size ∈ ico_sizes,
      (create_icon_image size).size = size ∧
      (canvas_grid (create_icon_image size)).length = size ∧
      (∀ row ∈ canvas_grid (create_icon_image size), row.length = size) ∧
      (∀ x y : Int, (new_canvas size).pix x y = transparent) := by
  intro size _
  refine ⟨rfl, ?_, ?_, fun _ _ => rfl⟩
  · unfold canvas_grid
    rw [List.length_map, List.length_range]
    rfl
  · intro row hrow
    unfold canvas_grid at hrow
    rw [List.mem_map] at hrow
    obtain ⟨y, _, rfl⟩ := hrow
    rw [List.length_map, List.length_range]
    rfl

/-- Witness for C3: the size-16 render is a 16-pixel-wide canvas. -/
theorem C3_canvas_shape_witness :
    (create_icon_image 16).size = 16 := (C3_canvas_shape 16 (by decide)).1

/-- C4, counterexample.  At size 16 no accent dot is drawn (16 < 48); the claim
asserts the pixel at the computed dot center is then background-colored.  The
would-be dot box is [11,4,13,6], centered at pixel (12,5); but that pixel lies on
the translucent-white border ring (the 1-pixel stroke of the circle inscribed 2px
from the canvas edge, box [2,2,13,13]) drawn after the gradient, so the rendered
color is the border color (255,255,255,100), not the background gradient color
(23,71,107,255) at that point. -/
theorem C4_counterexample :
    dot_center 16 = (12, 5) ∧
    (create_icon_image 16).pix 12 5 = ⟨255, 255, 255, 100⟩ ∧
    background_pix 16 12 5 = ⟨23, 71, 107, 255⟩ ∧
    (create_icon_image 16).pix 12 5 ≠ background_pix 16 12 5 := by decide

/-- C4, amended.  For every size in the set: the translucent-white accent dot
command (fill color (255,255,255,200)) occurs in the trace exactly when
size ≥ 48, and then exactly once, as the final drawing call, a filled circle of
diameter max(2, ⌊0.06·size⌋) whose box corner sits at offset
(+⌊0.2·size⌋, −⌈0.25·size⌉) from the center; for size ≥ 48 the rendered pixel at
the dot center is the non-transparent white (255,255,255,200); for size 32 the
pixel at the computed dot center is background-colored, while for size 16 it lies
on the border ring and carries the border color (255,255,255,100). -/
theorem C4_accent_dot :
    ∀ size ∈ ico_sizes,
      ((create_icon_image_cmds size).countP
          (fun c => decide (cmd_color c = ⟨255, 255, 255, 200⟩)) =
        if 48 ≤ size then 1 else 0) ∧
      (48 ≤ size →
        (create_icon_image_cmds size).getLast? =
          some (DrawCmd.ellipseFill ((dot_x_of size : Nat) : Int)
            ((dot_y_of size : Nat) : Int)
            ((dot_x_of size + dot_size_of size : Nat) : Int)
            ((dot_y_of size + dot_size_of size : Nat) : Int) ⟨255, 255, 255, 200⟩)) ∧
      (48 ≤ size →
        (create_icon_image size).pix (dot_center size).1 (dot_center size).2 =
          ⟨255, 255, 255, 200⟩) ∧
      (size = 32 →
        (create_icon_image size).pix (dot_center size).1 (dot_center size).2 =
          background_pix size (dot_center size).1 (dot_center size).2) ∧
      (size = 16 →
        (create_icon_image size).pix (dot_center size).1 (dot_center size).2 =
          ⟨255, 255, 255, 100⟩) := by
  decide

/-- Witness for C4: at size 48 the rendered pixel at the dot center is the
non-transparent white dot color. -/
theorem C4_accent_dot_witness :
    (create_icon_image 48).pix (dot_center 48).1 (dot_center 48).2 =
      ⟨255, 255, 255, 200⟩ :=
  (C4_accent_dot 48 (by decide)).2.2.1 (by decide)

/-- C5.  For every size in the set, the trace contains exactly three filled
rectangles: opaque chart-green bars of truncated heights ⌊0.12·size⌋,
⌊0.18·size⌋, ⌊0.24·size⌋, each of width max(2, ⌊0.06·size⌋), left to right from
x = ⌊center_x − 0.12·size⌋ with spacing ⌊0.08·size⌋, all sharing the baseline
y = ⌊center_y + 0.15·size⌋ and growing upward, and the bars' top-edge
y-coordinates are strictly decreasing in index order. -/
theorem C5_chart_bars :
    ∀ size ∈ ico_sizes,
      (create_icon_image_cmds size).filter is_rect_cmd =
        ((bar_heights_of size).enum.map (fun p =>
          let x : Int := ((bar_x_of size : Nat) : Int) +
            (p.1 : Int) * ((bar_spacing_of size : Nat) : Int)
          DrawCmd.rectFill x (((base_y_of size : Nat) : Int) - (p.2 : Int))
            (x + ((bar_width_of size : Nat) : Int)) ((base_y_of size : Nat) : Int)
            ⟨100, 200, 150, 255⟩)) ∧
      bar_heights_of size = [size * 12 / 100, size * 18 / 100, size * 24 / 100] ∧
      bar_width_of size = max 2 (size * 6 / 100) ∧
      bar_spacing_of size = size * 8 / 100 ∧
      base_y_of size = ((size / 2) * 100 + size * 15) / 100 ∧
      bar_x_of size = ((size / 2) * 100 - size * 12) / 100 ∧
      chainB (fun a b => decide (b < a))
        (((create_icon_image_cmds size).filter is_rect_cmd).map rect_y0) = true := by
  decide

/-- Witness for C5: at size 16 the trace holds exactly the three bar rectangles,
with strictly descending top edges. -/
theorem C5_chart_bars_witness :
    chainB (fun a b => decide (b < a))
      (((create_icon_image_cmds 16).filter is_rect_cmd).map rect_y0) = true :=
  (C5_chart_bars 16 (by decide)).2.2.2.2.2.2

/-- C6.  `create_ico_file` renders one canvas per size of the ascending list
[16, 32, 48, 64, 128, 256] and packs exactly those six frames, in order, into the
container; the frames' pixel dimensions are exactly that size list. -/
theorem C6_ico_frames :
    create_ico_file.frames.length = 6 ∧
    create_ico_file.frames.map Canvas.size = ico_sizes ∧
    ico_sizes = [16, 32, 48, 64, 128, 256] ∧
    chainB (fun a b => decide (a < b)) ico_sizes = true ∧
    create_ico_file.frames = ico_sizes.map create_icon_image :=
  ⟨rfl, rfl, rfl, rfl, rfl⟩

/-- C7.  The renderer is a pure function of the size argument: the observable
outputs of a run of `main` do not depend on the ambient filesystem state, so any
two runs (in particular two successive ones, the second seeing the files written
by the first) produce identical container and preview contents. -/
theorem C7_deterministic :
    ∀ e1 e2 : List (String × List Nat), main_outputs e1 = main_outputs e2 :=
  fun _ _ => rfl

/-- C8.  For every size in the set, the trace strokes exactly two arcs, both in
opaque scan-blue (200,230,255) with the same width max(2, size/20): an inner arc
of radius ⌊0.25·size⌋ spanning −135° to −45° and an outer arc of radius
⌊0.35·size⌋ spanning 45° to 135°, each centered at the canvas center. -/
theorem C8_scan_arcs :
    ∀ size ∈ ico_sizes,
      (create_icon_image_cmds size).filter is_arc_cmd =
        [DrawCmd.arcStroke
            (((size / 2 : Nat) : Int) - ((size * 25 / 100 : Nat) : Int))
            (((size / 2 : Nat) : Int) - ((size * 25 / 100 : Nat) : Int))
            (((size / 2 : Nat) : Int) + ((size * 25 / 100 : Nat) : Int))
            (((size / 2 : Nat) : Int) + ((size * 25 / 100 : Nat) : Int))
            (-135) (-45) ⟨200, 230, 255, 255⟩ (max 2 (size / 20)),
         DrawCmd.arcStroke
            (((size / 2 : Nat) : Int) - ((size * 35 / 100 : Nat) : Int))
            (((size / 2 : Nat) : Int) - ((size * 35 / 100 : Nat) : Int))
            (((size / 2 : Nat) : Int) + ((size * 35 / 100 : Nat) : Int))
            (((size / 2 : Nat) : Int) + ((size * 35 / 100 : Nat) : Int))
            45 135 ⟨200, 230, 255, 255⟩ (max 2 (size / 20))] := by
  decide

/-- Witness for C8: the size-16 trace holds exactly two stroked arcs. -/
theorem C8_scan_arcs_witness :
    ((create_icon_image_cmds 16).filter is_arc_cmd).length = 2 := by
  rw [C8_scan_arcs 16 (by decide)]
  rfl

/-- C9.  The gradient ratio division `r / (size // 2)` never divides by zero:
whenever the loop body executes — that is, whenever some radius r is a member of
the loop's radius list — the divisor size/2 is positive; and for size 1 the loop
body never runs at all. -/
theorem C9_no_div_by_zero :
    (∀ size rr : Nat, rr ∈ gradient_radii size → 0 < size / 2) ∧
    gradient_radii 1 = [] := by
  constructor
  · intro size rr h
    rw [gradient_radii, List.mem_reverse] at h
    rcases Nat.eq_zero_or_pos (size / 2) with h0 | h0
    · rw [h0] at h
      simp at h
    · exact h0
  · rfl

/-- Witness for C9: radius 2 is visited at size 4 and the divisor 4/2 is positive. -/
theorem C9_no_div_by_zero_witness : 0 < 4 / 2 :=
  C9_no_div_by_zero.1 4 2 (by decide)

/-- C10.  The standalone 256-pixel preview written by `main` is the very canvas
embedded as the sixth frame of the icon container: both are `create_icon_image 256`,
so they agree pixel for pixel. -/
theorem C10_preview_matches_frame :
    create_ico_file.frames.get? 5 = some main_preview ∧
    ∀ x y : Int, main_preview.pix x y = (create_icon_image 256).pix x y :=
  ⟨rfl, fun _ _ => rfl⟩

end RVUCounter
